import Mathlib

/-!
Shallow embedding of the trap/exception and execution-context layer of the
Starry-OS/axcpu crate (files `src/trap.rs`, `src/x86_64/context.rs`,
`src/x86_64/trap.rs`, `src/x86_64/uspace.rs`, `src/aarch64/uspace.rs`),
together with proofs about the properties claimed of it.

Machine integers (`u64`/`usize`, both 64-bit here) are modelled as `Nat`:
the embedded operations only store, compare and bit-twiddle register values,
never perform wrapping arithmetic, so no `% 2 ^ 64` is needed.  Code that can
`panic!` is modelled with `Option`/`Except` (`none`/`.error` = panic).
Hardware side effects (FPU save/restore, MSR writes, the user-mode round
trip) are modelled by explicit event traces.
-/

namespace Axcpu

/-! ## x86_64 register frame (src/x86_64/context.rs, `TrapFrame`) -/

/-- Saved registers when a trap occurs on x86_64 (`TrapFrame` in
`src/x86_64/context.rs`).  Fields in source order. -/
structure X86TrapFrame where
  rax : Nat
  rcx : Nat
  rdx : Nat
  rbx : Nat
  rbp : Nat
  rsi : Nat
  rdi : Nat
  r8 : Nat
  r9 : Nat
  r10 : Nat
  r11 : Nat
  r12 : Nat
  r13 : Nat
  r14 : Nat
  r15 : Nat
  vector : Nat
  error_code : Nat
  rip : Nat
  cs : Nat
  rflags : Nat
  rsp : Nat
  ss : Nat
deriving DecidableEq

/-- The `Default` derive on the Rust struct: all fields zero. -/
def X86TrapFrame.default : X86TrapFrame :=
  ⟨0, 0, 0, 0, 0, 0, 0, 0, 0, 0, 0, 0, 0, 0, 0, 0, 0, 0, 0, 0, 0, 0⟩

/-- `TrapFrame::arg0`: the 0th syscall argument (rdi). -/
def X86TrapFrame.arg0 (tf : X86TrapFrame) : Nat := tf.rdi

/-- `TrapFrame::ip`: gets the instruction pointer. -/
def X86TrapFrame.ip (tf : X86TrapFrame) : Nat := tf.rip

/-- `TrapFrame::set_ip`: sets the instruction pointer. -/
def X86TrapFrame.set_ip (tf : X86TrapFrame) (rip : Nat) : X86TrapFrame :=
  { tf with rip := rip }

/-- `TrapFrame::sp`: gets the stack pointer. -/
def X86TrapFrame.sp (tf : X86TrapFrame) : Nat := tf.rsp

/-- `TrapFrame::set_sp`: sets the stack pointer. -/
def X86TrapFrame.set_sp (tf : X86TrapFrame) (rsp : Nat) : X86TrapFrame :=
  { tf with rsp := rsp }

/-- `TrapFrame::sysno`: gets the syscall number (rax). -/
def X86TrapFrame.sysno (tf : X86TrapFrame) : Nat := tf.rax

/-- `TrapFrame::set_sysno`: sets the syscall number (rax). -/
def X86TrapFrame.set_sysno (tf : X86TrapFrame) (rax : Nat) : X86TrapFrame :=
  { tf with rax := rax }

/-- `TrapFrame::retval`: gets the return value register (rax). -/
def X86TrapFrame.retval (tf : X86TrapFrame) : Nat := tf.rax

/-- `TrapFrame::set_retval`: sets the return value register (rax). -/
def X86TrapFrame.set_retval (tf : X86TrapFrame) (rax : Nat) : X86TrapFrame :=
  { tf with rax := rax }

/-! ## Exception fixup table (src/trap.rs) -/

/-- `ExceptionTableEntry` in `src/trap.rs`: a pair of a faulting instruction
address and a recovery address.  The Rust field `from` is a Lean keyword, so
it is rendered `from_addr` (and `to` as `to_addr`). -/
structure ExceptionTableEntry where
  from_addr : Nat
  to_addr : Nat
deriving DecidableEq

/-- The derived `Ord` on `ExceptionTableEntry`: lexicographic on
`(from, to)`. -/
def entryLe (a b : ExceptionTableEntry) : Prop :=
  a.from_addr < b.from_addr ∨ (a.from_addr = b.from_addr ∧ a.to_addr ≤ b.to_addr)

instance : DecidableRel entryLe := fun a b => by
  unfold entryLe; infer_instance

instance : IsTotal ExceptionTableEntry entryLe :=
  ⟨fun a b => by unfold entryLe; omega⟩

instance : IsTrans ExceptionTableEntry entryLe :=
  ⟨fun a b c hab hbc => by unfold entryLe at *; omega⟩

/-- `init_exception_table` in `src/trap.rs`: sorts the linker-populated
table ascending by the derived `Ord` (`ex_table.sort_unstable()`).
`sort_unstable` is modelled by any correct sort; insertion sort is used. -/
def init_exception_table (t : List ExceptionTableEntry) : List ExceptionTableEntry :=
  List.insertionSort entryLe t

/-- Default entry used to express out-of-range `getD` reads (never actually
read by the search while `left < right ≤ length`). -/
def dEntry : ExceptionTableEntry := ⟨0, 0⟩

/-- Rust's `slice::binary_search_by` with comparator `e.from.cmp(&ip)`,
specialized to the exception table.  `left`/`right` delimit the live part
of the slice; each round probes `mid = left + size / 2` with
`size = right - left`, exactly as the standard-library loop does, and
returns `some mid` on an `Equal` comparison (`Ok(mid)` in Rust) or `none`
once the range is empty (`Err(..)`).  The extra fuel argument makes the
recursion structural; every round shrinks the range by at least one, so
any fuel at least `right - left` (the callers pass `es.length`) gives the
exact behaviour of the loop. -/
def bsearchFrom (es : List ExceptionTableEntry) (ip : Nat) :
    Nat → Nat → Nat → Option Nat
  | 0, _, _ => none
  | fuel + 1, left, right =>
    if left < right then
      if (es.getD (left + (right - left) / 2) dEntry).from_addr < ip then
        bsearchFrom es ip fuel (left + (right - left) / 2 + 1) right
      else if ip < (es.getD (left + (right - left) / 2) dEntry).from_addr then
        bsearchFrom es ip fuel left (left + (right - left) / 2)
      else
        some (left + (right - left) / 2)
    else
      none

/-- `TrapFrame::fixup_exception` in `src/trap.rs`: binary-search the table
for an entry whose `from` equals the frame's current instruction pointer;
on a hit, rewrite the instruction pointer to that entry's `to` and report
success, otherwise report failure with the frame untouched. -/
def fixup_exception (es : List ExceptionTableEntry) (tf : X86TrapFrame) :
    Bool × X86TrapFrame :=
  match bsearchFrom es tf.ip es.length 0 es.length with
  | some i => (true, tf.set_ip ((es.getD i dEntry).to_addr))
  | none => (false, tf)

/-! ### Correctness of the exact-match binary search -/

/-- Reading inside the bounds, `getD` agrees with `getElem`. -/
theorem getD_of_lt (es : List ExceptionTableEntry) {j : Nat} (h : j < es.length) :
    es.getD j dEntry = es[j] := by
  simp [List.getD_eq_getElem?_getD, List.getElem?_eq_getElem h]

/-- In a table sorted (weakly) ascending by `from`, the `from` fields read
through `getD` are monotone. -/
theorem sorted_from_le (es : List ExceptionTableEntry)
    (hs : es.Pairwise (fun a b => a.from_addr ≤ b.from_addr))
    {i j : Nat} (hij : i ≤ j) (hj : j < es.length) :
    (es.getD i dEntry).from_addr ≤ (es.getD j dEntry).from_addr := by
  rcases Nat.lt_or_eq_of_le hij with h | h
  · rw [getD_of_lt es (lt_trans h hj), getD_of_lt es hj]
    exact List.pairwise_iff_getElem.mp hs i j (by omega) hj h
  · rw [h]

/-- If the search finds an index, it is in range and its `from` is the
probed instruction pointer.  Fuel-indexed strong induction on the width of
the live range. -/
theorem bsearchFrom_some (es : List ExceptionTableEntry) (ip : Nat) :
    ∀ (fuel left right i : Nat), right - left ≤ fuel → right ≤ es.length →
      bsearchFrom es ip fuel left right = some i →
      i < es.length ∧ (es.getD i dEntry).from_addr = ip := by
  intro fuel
  induction fuel with
  | zero =>
    intro left right i _ _ h
    exact absurd h (by simp [bsearchFrom])
  | succ n ih =>
    intro left right i hf hr h
    rw [bsearchFrom] at h
    split at h
    case isTrue hlr =>
      split at h
      case isTrue h1 =>
        exact ih (left + (right - left) / 2 + 1) right i (by omega) hr h
      case isFalse h1 =>
        split at h
        case isTrue h2 =>
          exact ih left (left + (right - left) / 2) i (by omega) (by omega) h
        case isFalse h2 =>
          cases h
          constructor
          · omega
          · omega
    case isFalse hlr => exact absurd h (by simp)

/-- If the search on a `from`-sorted table misses, no index in range has
`from` equal to the probed instruction pointer.  The two invariants say
that everything left of `left` is strictly below `ip` and everything at or
right of `right` is strictly above it. -/
theorem bsearchFrom_none (es : List ExceptionTableEntry) (ip : Nat)
    (hs : es.Pairwise (fun a b => a.from_addr ≤ b.from_addr)) :
    ∀ (fuel left right : Nat), right - left ≤ fuel → right ≤ es.length →
      (∀ j, j < left → j < es.length → (es.getD j dEntry).from_addr < ip) →
      (∀ j, right ≤ j → j < es.length → ip < (es.getD j dEntry).from_addr) →
      bsearchFrom es ip fuel left right = none →
      ∀ j, j < es.length → (es.getD j dEntry).from_addr ≠ ip := by
  intro fuel
  induction fuel with
  | zero =>
    intro left right hf _ hlo hhi _ j hj
    rcases Nat.lt_or_ge j left with hjl | hjl
    · exact Nat.ne_of_lt (hlo j hjl hj)
    · exact Nat.ne_of_gt (hhi j (by omega) hj)
  | succ n ih =>
    intro left right hf hr hlo hhi h j hj
    rw [bsearchFrom] at h
    split at h
    case isTrue hlr =>
      split at h
      case isTrue h1 =>
        refine ih (left + (right - left) / 2 + 1) right (by omega) hr ?_ hhi h j hj
        intro k hk hk'
        calc (es.getD k dEntry).from_addr
            ≤ (es.getD (left + (right - left) / 2) dEntry).from_addr :=
              sorted_from_le es hs (by omega) (by omega)
          _ < ip := h1
      case isFalse h1 =>
        split at h
        case isTrue h2 =>
          refine ih left (left + (right - left) / 2) (by omega) (by omega) hlo ?_ h j hj
          intro k hk hk'
          calc ip < (es.getD (left + (right - left) / 2) dEntry).from_addr := h2
            _ ≤ (es.getD k dEntry).from_addr := sorted_from_le es hs hk hk'
        case isFalse h2 => exact absurd h (by simp)
    case isFalse hlr =>
      rcases Nat.lt_or_ge j left with hjl | hjl
      · exact Nat.ne_of_lt (hlo j hjl hj)
      · exact Nat.ne_of_gt (hhi j (by omega) hj)

/-- The sorted table is weakly ascending in `from`. -/
theorem init_exception_table_sorted (t : List ExceptionTableEntry) :
    (init_exception_table t).Pairwise (fun a b => a.from_addr ≤ b.from_addr) := by
  have h := List.sorted_insertionSort entryLe t
  exact List.Pairwise.imp (fun hab => by unfold entryLe at hab; omega) h

/-- The sorted table is a permutation of the linker-populated one. -/
theorem init_exception_table_perm (t : List ExceptionTableEntry) :
    List.Perm (init_exception_table t) t :=
  List.perm_insertionSort entryLe t

/-- Concrete linker-populated table used to witness the fixup claim. -/
def T0 : List ExceptionTableEntry := [⟨10, 100⟩, ⟨5, 50⟩]

/-- Concrete frame whose instruction pointer hits an entry of `T0`. -/
def tf10 : X86TrapFrame := { X86TrapFrame.default with rip := 10 }

/-- Claim C1: after `init_exception_table` has sorted the linker-populated
exception table, the table is sorted ascending by `from`; for every
`TrapFrame`, `fixup_exception` returns true and rewrites the frame's
instruction pointer to the matching entry's `to` address exactly when the
frame's current instruction pointer equals some entry's `from` address, and
returns false leaving the frame completely unchanged when no entry's `from`
equals the instruction pointer. -/
theorem exception_table_fixup_correct (t : List ExceptionTableEntry)
    (tf : X86TrapFrame) :
    (init_exception_table t).Pairwise (fun a b => a.from_addr ≤ b.from_addr)
    ∧ ((fixup_exception (init_exception_table t) tf).1 = true ↔
        ∃ e ∈ t, e.from_addr = tf.ip)
    ∧ ((fixup_exception (init_exception_table t) tf).1 = true →
        ∃ e ∈ t, e.from_addr = tf.ip ∧
          (fixup_exception (init_exception_table t) tf).2 = tf.set_ip e.to_addr)
    ∧ ((fixup_exception (init_exception_table t) tf).1 = false →
        (fixup_exception (init_exception_table t) tf).2 = tf) := by
  have hsorted := init_exception_table_sorted t
  have hperm := init_exception_table_perm t
  refine ⟨hsorted, ?_, ?_, ?_⟩
  · constructor
    · intro htrue
      unfold fixup_exception at htrue
      rcases hb : bsearchFrom (init_exception_table t) tf.ip
          (init_exception_table t).length 0 (init_exception_table t).length with _ | i
      · rw [hb] at htrue; simp at htrue
      · have ⟨hi, hfrom⟩ := bsearchFrom_some (init_exception_table t) tf.ip
          (init_exception_table t).length 0 (init_exception_table t).length i
          (by omega) (le_refl _) hb
        refine ⟨(init_exception_table t).getD i dEntry, ?_, hfrom⟩
        rw [hperm.mem_iff.symm, getD_of_lt _ hi]
        exact List.getElem_mem hi
    · intro ⟨e, he, hfrom⟩
      unfold fixup_exception
      rcases hb : bsearchFrom (init_exception_table t) tf.ip
          (init_exception_table t).length 0 (init_exception_table t).length with _ | i
      · exfalso
        have hmem : e ∈ init_exception_table t := hperm.mem_iff.mpr he
        obtain ⟨j, hj, hje⟩ := List.getElem_of_mem hmem
        refine bsearchFrom_none (init_exception_table t) tf.ip hsorted
          (init_exception_table t).length 0 (init_exception_table t).length
          (by omega) (le_refl _) (by omega) (by omega) hb j hj ?_
        rw [getD_of_lt _ hj, hje, hfrom]
      · simp
  · intro htrue
    unfold fixup_exception at htrue ⊢
    rcases hb : bsearchFrom (init_exception_table t) tf.ip
        (init_exception_table t).length 0 (init_exception_table t).length with _ | i
    · rw [hb] at htrue; simp at htrue
    · have ⟨hi, hfrom⟩ := bsearchFrom_some (init_exception_table t) tf.ip
        (init_exception_table t).length 0 (init_exception_table t).length i
        (by omega) (le_refl _) hb
      refine ⟨(init_exception_table t).getD i dEntry, ?_, hfrom, rfl⟩
      rw [hperm.mem_iff.symm, getD_of_lt _ hi]
      exact List.getElem_mem hi
  · intro hfalse
    unfold fixup_exception at hfalse ⊢
    rcases hb : bsearchFrom (init_exception_table t) tf.ip
        (init_exception_table t).length 0 (init_exception_table t).length with _ | i
    · rfl
    · rw [hb] at hfalse; simp at hfalse

/-- Witness for C1: on the concrete table `T0` and a frame stopped at
address 10, fixup succeeds and redirects the frame to the recovery address
of the entry `(10, 100)`. -/
theorem exception_table_fixup_correct_witness :
    ∃ e ∈ T0, e.from_addr = tf10.ip ∧
      (fixup_exception (init_exception_table T0) tf10).2 = tf10.set_ip e.to_addr :=
  (exception_table_fixup_correct T0 tf10).2.2.1 (by decide)

/-! ## x86_64 user context (src/x86_64/uspace.rs) -/

/-- Modelled from the spec: the user code segment selector constant supplied
by the external descriptor-table setup (`GdtStruct::UCODE64_SELECTOR`;
`gdt.rs` is not part of the given sources).  The spec only requires it to be
a fixed user-privilege selector value, i.e. RPL bits = 3. -/
def UCODE64_SELECTOR : Nat := 0x33

/-- Modelled from the spec: the user data segment selector constant supplied
by the external descriptor-table setup (`GdtStruct::UDATA_SELECTOR`), a
fixed user-privilege selector value with RPL bits = 3. -/
def UDATA_SELECTOR : Nat := 0x2b

/-- `RFlags::INTERRUPT_FLAG` of the x86 architecture: bit 9 (IF). -/
def RFLAGS_IF : Nat := 0x200

/-- `UserContext` in `src/x86_64/uspace.rs`: a wrapped `TrapFrame`. -/
structure X86UserContext where
  tf : X86TrapFrame
deriving DecidableEq

/-- `UserContext::new` in `src/x86_64/uspace.rs`: entry point in `rip`,
argument in `rdi`, user stack in `rsp`, user segment selectors, IF set,
every other register from `Default` (zero). -/
def X86UserContext.new (entry ustack_top arg0 : Nat) : X86UserContext :=
  ⟨{ X86TrapFrame.default with
      rdi := arg0
      rip := entry
      cs := UCODE64_SELECTOR
      rflags := RFLAGS_IF
      rsp := ustack_top
      ss := UDATA_SELECTOR }⟩

/-- `UserContext::from` in `src/x86_64/uspace.rs` (`from` is a Lean keyword,
hence `from_tf`): copies the given frame but forces `cs`/`ss` to the user
segment selectors. -/
def X86UserContext.from_tf (tf : X86TrapFrame) : X86UserContext :=
  ⟨{ tf with cs := UCODE64_SELECTOR, ss := UDATA_SELECTOR }⟩

/-! ## aarch64 register frame and user contexts (src/aarch64/uspace.rs)

The aarch64 `TrapFrame` struct itself lives in a file not under the given
sources, but every one of its fields and their meaning is pinned down by the
struct literals in `src/aarch64/uspace.rs` (`r` — 31 general registers,
`usp`, `tpidr`, `elr`, `spsr`), which is what is embedded here. -/

/-- The aarch64 trap frame as constructed in `src/aarch64/uspace.rs`. -/
structure A64TrapFrame where
  r : Fin 31 → Nat
  usp : Nat
  tpidr : Nat
  elr : Nat
  spsr : Nat
deriving DecidableEq

/-- The SPSR_EL1 value written by `UspaceContext::new`:
`M::EL0t + D::Masked + A::Masked + I::Unmasked + F::Masked`
= bits 9 (D), 8 (A) and 6 (F) set, mode field zero. -/
def SPSR_EL0T_DAF : Nat := 0x340

/-- `UspaceContext` in `src/aarch64/uspace.rs`: a wrapped `TrapFrame`. -/
structure UspaceContext where
  tf : A64TrapFrame
deriving DecidableEq

/-- `UspaceContext::new`: `regs[0] = arg0`, other registers zero, user
stack pointer, `tpidr = 0`, entry point in `elr`, SPSR for EL0t with D/A/F
masked and IRQs unmasked. -/
def UspaceContext.new (entry ustack_top arg0 : Nat) : UspaceContext :=
  ⟨{ r := fun i => if i.val = 0 then arg0 else 0
     usp := ustack_top
     tpidr := 0
     elr := entry
     spsr := SPSR_EL0T_DAF }⟩

/-- `UspaceContext::from`: `Self(*trap_frame)` — a verbatim copy of the
given frame, every field (including `spsr`) unchanged. -/
def UspaceContext.from_tf (trap_frame : A64TrapFrame) : UspaceContext :=
  ⟨trap_frame⟩

/-- The second aarch64 user context type (`UserContext` in
`src/aarch64/uspace.rs`): a `TrapFrame` plus the saved EL1 stack pointer. -/
structure A64UserContext where
  tf : A64TrapFrame
  sp_el1 : Nat
deriving DecidableEq

/-- `impl From<TrapFrame> for UserContext`: wraps the frame unchanged with
`sp_el1 = 0`. -/
def A64UserContext.from_tf (tf : A64TrapFrame) : A64UserContext :=
  ⟨tf, 0⟩

/-- `UserContext::new` in `src/aarch64/uspace.rs`: all 31 general registers
zero (the `_arg0` parameter is ignored), user stack pointer, `tpidr = 0`,
entry in `elr`, `spsr = 0 | (0b0000 << 4) = 0`, `sp_el1 = 0`. -/
def A64UserContext.new (entry ustack_top _arg0 : Nat) : A64UserContext :=
  ⟨{ r := fun _ => 0
     usp := ustack_top
     tpidr := 0
     elr := entry
     spsr := 0 }, 0⟩

/-- Claim C2 counterexample: `UserContext::new` on aarch64 ignores its
`_arg0` parameter, so with `arg0 = 7` the argument-0 register slot reads
back `0`, not `7` — the claim fails for the aarch64 `UserContext::new`
constructor. -/
theorem a64_user_context_new_drops_arg0 :
    (A64UserContext.new 0 0 7).tf.r 0 = 0 ∧ (0 : Nat) ≠ 7 := by
  exact ⟨rfl, by decide⟩

/-- Claim C2 (amended): for every entry point, user stack top and arg0, the
x86_64 `UserContext::new` and aarch64 `UspaceContext::new` frames have the
instruction pointer equal to `entry`, the stack pointer equal to
`ustack_top`, the argument-0 slot equal to `arg0`, and every other
general-purpose register zero; the aarch64 `UserContext::new` frame has the
same instruction/stack pointers and all 31 general-purpose registers zero,
its `_arg0` parameter being ignored (argument-0 slot reads back 0). -/
theorem user_context_new_registers (entry ustack_top arg0 : Nat) :
    ((X86UserContext.new entry ustack_top arg0).tf.ip = entry
      ∧ (X86UserContext.new entry ustack_top arg0).tf.sp = ustack_top
      ∧ (X86UserContext.new entry ustack_top arg0).tf.arg0 = arg0
      ∧ (X86UserContext.new entry ustack_top arg0).tf.rax = 0
      ∧ (X86UserContext.new entry ustack_top arg0).tf.rcx = 0
      ∧ (X86UserContext.new entry ustack_top arg0).tf.rdx = 0
      ∧ (X86UserContext.new entry ustack_top arg0).tf.rbx = 0
      ∧ (X86UserContext.new entry ustack_top arg0).tf.rbp = 0
      ∧ (X86UserContext.new entry ustack_top arg0).tf.rsi = 0
      ∧ (X86UserContext.new entry ustack_top arg0).tf.r8 = 0
      ∧ (X86UserContext.new entry ustack_top arg0).tf.r9 = 0
      ∧ (X86UserContext.new entry ustack_top arg0).tf.r10 = 0
      ∧ (X86UserContext.new entry ustack_top arg0).tf.r11 = 0
      ∧ (X86UserContext.new entry ustack_top arg0).tf.r12 = 0
      ∧ (X86UserContext.new entry ustack_top arg0).tf.r13 = 0
      ∧ (X86UserContext.new entry ustack_top arg0).tf.r14 = 0
      ∧ (X86UserContext.new entry ustack_top arg0).tf.r15 = 0)
    ∧ ((UspaceContext.new entry ustack_top arg0).tf.elr = entry
      ∧ (UspaceContext.new entry ustack_top arg0).tf.usp = ustack_top
      ∧ (UspaceContext.new entry ustack_top arg0).tf.r 0 = arg0
      ∧ ∀ i : Fin 31, i ≠ 0 → (UspaceContext.new entry ustack_top arg0).tf.r i = 0)
    ∧ ((A64UserContext.new entry ustack_top arg0).tf.elr = entry
      ∧ (A64UserContext.new entry ustack_top arg0).tf.usp = ustack_top
      ∧ (A64UserContext.new entry ustack_top arg0).tf.r 0 = 0
      ∧ ∀ i : Fin 31, (A64UserContext.new entry ustack_top arg0).tf.r i = 0) := by
  refine ⟨⟨rfl, rfl, rfl, rfl, rfl, rfl, rfl, rfl, rfl, rfl, rfl, rfl, rfl,
    rfl, rfl, rfl, rfl⟩, ⟨rfl, rfl, rfl, ?_⟩, rfl, rfl, rfl, fun _ => rfl⟩
  intro i hi
  have hv : i.val ≠ 0 := fun h => hi (Fin.ext h)
  show (if i.val = 0 then arg0 else 0) = 0
  simp [hv]

/-- Witness for the amended C2: at `entry = 1`, `ustack_top = 2`,
`arg0 = 3`, register `x5` of the `UspaceContext::new` frame is zero. -/
theorem user_context_new_registers_witness :
    (UspaceContext.new 1 2 3).tf.r 5 = 0 :=
  (user_context_new_registers 1 2 3).2.1.2.2.2 5 (by decide)

/-- Concrete aarch64 frame that was trapped while in kernel mode: its
`spsr` mode field M[3:0] is `0b0101` (EL1h), not a user-mode value. -/
def a64tfK : A64TrapFrame :=
  { r := fun _ => 0, usp := 0, tpidr := 0, elr := 0, spsr := 5 }

/-- Claim C9 counterexample: the aarch64 `UspaceContext::from` copies the
frame verbatim, so a frame whose saved status word has kernel mode bits
(`spsr % 16 = 5`, EL1h) keeps them — they are not forced to the user-mode
value (EL0t, mode field 0). -/
theorem uspace_from_keeps_kernel_spsr :
    (UspaceContext.from_tf a64tfK).tf.spsr = 5 ∧ (5 : Nat) % 16 ≠ 0 := by
  exact ⟨rfl, by decide⟩

/-- Claim C9 (amended): `UserContext::from` on x86_64 forces the segment
selectors `cs`/`ss` to the user selectors (RPL bits = 3) while copying every
other field of the frame unchanged; the two aarch64 from-frame constructors
copy the whole frame unchanged — including `spsr`, whose mode bits are not
forced to user values (the second one additionally zero-initializes
`sp_el1`). -/
theorem from_frame_registers (tf : X86TrapFrame) (atf : A64TrapFrame) :
    ((X86UserContext.from_tf tf).tf.cs = UCODE64_SELECTOR
      ∧ (X86UserContext.from_tf tf).tf.ss = UDATA_SELECTOR
      ∧ UCODE64_SELECTOR % 4 = 3 ∧ UDATA_SELECTOR % 4 = 3
      ∧ (X86UserContext.from_tf tf).tf.rax = tf.rax
      ∧ (X86UserContext.from_tf tf).tf.rcx = tf.rcx
      ∧ (X86UserContext.from_tf tf).tf.rdx = tf.rdx
      ∧ (X86UserContext.from_tf tf).tf.rbx = tf.rbx
      ∧ (X86UserContext.from_tf tf).tf.rbp = tf.rbp
      ∧ (X86UserContext.from_tf tf).tf.rsi = tf.rsi
      ∧ (X86UserContext.from_tf tf).tf.rdi = tf.rdi
      ∧ (X86UserContext.from_tf tf).tf.r8 = tf.r8
      ∧ (X86UserContext.from_tf tf).tf.r9 = tf.r9
      ∧ (X86UserContext.from_tf tf).tf.r10 = tf.r10
      ∧ (X86UserContext.from_tf tf).tf.r11 = tf.r11
      ∧ (X86UserContext.from_tf tf).tf.r12 = tf.r12
      ∧ (X86UserContext.from_tf tf).tf.r13 = tf.r13
      ∧ (X86UserContext.from_tf tf).tf.r14 = tf.r14
      ∧ (X86UserContext.from_tf tf).tf.r15 = tf.r15
      ∧ (X86UserContext.from_tf tf).tf.vector = tf.vector
      ∧ (X86UserContext.from_tf tf).tf.error_code = tf.error_code
      ∧ (X86UserContext.from_tf tf).tf.rip = tf.rip
      ∧ (X86UserContext.from_tf tf).tf.rflags = tf.rflags
      ∧ (X86UserContext.from_tf tf).tf.rsp = tf.rsp)
    ∧ (UspaceContext.from_tf atf).tf = atf
    ∧ (A64UserContext.from_tf atf).tf = atf
    ∧ (A64UserContext.from_tf atf).sp_el1 = 0 := by
  exact ⟨⟨rfl, rfl, rfl, rfl, rfl, rfl, rfl, rfl, rfl, rfl, rfl, rfl, rfl,
    rfl, rfl, rfl, rfl, rfl, rfl, rfl, rfl, rfl, rfl, rfl⟩, rfl, rfl, rfl⟩

/-- Claim C10: on the x86_64 `TrapFrame` the syscall-number slot and the
return-value slot alias the same register (`rax`): after `set_retval v`
both `retval` and `sysno` read back `v`, and after `set_sysno v` both do
too. -/
theorem sysno_retval_alias (tf : X86TrapFrame) (v : Nat) :
    tf.sysno = tf.retval
    ∧ (tf.set_retval v).retval = v ∧ (tf.set_retval v).sysno = v
    ∧ (tf.set_sysno v).sysno = v ∧ (tf.set_sysno v).retval = v :=
  ⟨rfl, rfl, rfl, rfl, rfl⟩

/-! ## Page-fault access flags and the x86_64 error-code decoder
(src/x86_64/trap.rs, `err_code_to_flags`) -/

/-- `MappingFlags::READ` of the `page_table_entry` crate (bit 0). -/
def MF_READ : Nat := 1

/-- `MappingFlags::WRITE` (bit 1). -/
def MF_WRITE : Nat := 2

/-- `MappingFlags::EXECUTE` (bit 2). -/
def MF_EXECUTE : Nat := 4

/-- `MappingFlags::USER` (bit 3). -/
def MF_USER : Nat := 8

/-- Containment of a single-bit flag in a flag set (`flags.contains(bit)`
for one-bit `bit`). -/
def hasFlag (flags bit : Nat) : Prop := flags &&& bit ≠ 0

instance (flags bit : Nat) : Decidable (hasFlag flags bit) := by
  unfold hasFlag; infer_instance

/-- `PageFaultErrorCode` bits of the `x86_64` crate, as used by
`err_code_to_flags`. -/
def PF_PROT : Nat := 1

/-- `PageFaultErrorCode::CAUSED_BY_WRITE` (bit 1). -/
def PF_WRITE : Nat := 2

/-- `PageFaultErrorCode::USER_MODE` (bit 2). -/
def PF_USER : Nat := 4

/-- `PageFaultErrorCode::MALFORMED_TABLE` (bit 3). -/
def PF_MALFORMED : Nat := 8

/-- `PageFaultErrorCode::INSTRUCTION_FETCH` (bit 4). -/
def PF_IFETCH : Nat := 16

/-- `PageFaultErrorCode::PROTECTION_KEY` (bit 5). -/
def PF_PKEY : Nat := 32

/-- `PageFaultErrorCode::SHADOW_STACK` (bit 6). -/
def PF_SS : Nat := 64

/-- `PageFaultErrorCode::SGX` (bit 15). -/
def PF_SGX : Nat := 0x8000

/-- `PageFaultErrorCode::RMP` (bit 31). -/
def PF_RMP : Nat := 0x80000000

/-- All bits known to `PageFaultErrorCode`; `from_bits_truncate` masks the
raw error code with this. -/
def PF_KNOWN : Nat :=
  PF_PROT ||| PF_WRITE ||| PF_USER ||| PF_MALFORMED ||| PF_IFETCH |||
    PF_PKEY ||| PF_SS ||| PF_SGX ||| PF_RMP

/-- `(CAUSED_BY_WRITE | USER_MODE | INSTRUCTION_FETCH |
PROTECTION_VIOLATION).complement()` within the known bits. -/
def PF_RESERVED : Nat := PF_MALFORMED ||| PF_PKEY ||| PF_SS ||| PF_SGX ||| PF_RMP

/-- `err_code_to_flags` in `src/x86_64/trap.rs`: truncate the raw error code
to the known bits; reject (panic upstream) if any reserved bit is set;
otherwise WRITE when the write bit is set else READ, plus USER for the
user-mode bit and EXECUTE for the instruction-fetch bit. -/
def err_code_to_flags (err_code : Nat) : Except Nat Nat :=
  if (err_code &&& PF_KNOWN) &&& PF_RESERVED ≠ 0 then
    Except.error err_code
  else
    Except.ok
      ((if (err_code &&& PF_KNOWN) &&& PF_WRITE = PF_WRITE then MF_WRITE else MF_READ)
        ||| (if (err_code &&& PF_KNOWN) &&& PF_USER = PF_USER then MF_USER else 0)
        ||| (if (err_code &&& PF_KNOWN) &&& PF_IFETCH = PF_IFETCH then MF_EXECUTE else 0))

/-! ## aarch64 user-trap classification (src/aarch64/uspace.rs) -/

/-- The architecture-neutral `ExceptionKind` of `src/trap.rs`. -/
inductive ExceptionKind
  | other
  | breakpoint
  | illegalInstruction
  | misaligned
deriving DecidableEq

/-- `ExceptionInfo` of `src/aarch64/uspace.rs`: only an `stval` field. -/
structure A64ExceptionInfo where
  stval : Nat
deriving DecidableEq

/-- `ExceptionInfo::kind` on aarch64 always returns `Other` (the match on
the cause is commented out in the source). -/
def A64ExceptionInfo.kind (_info : A64ExceptionInfo) : ExceptionKind := .other

/-- `ReturnReason` of `src/trap.rs` as instantiated on aarch64 (the
`Exception` payload is the aarch64 `ExceptionInfo`). -/
inductive A64ReturnReason
  | unknown
  | interrupt
  | syscall
  | pageFault (vaddr : Nat) (access_flags : Nat)
  | exception (info : A64ExceptionInfo)
deriving DecidableEq

/-- `handle_instruction_abort_lower`: EXECUTE plus USER (for user faults)
access, report a page fault at the FAR address only for translation or
permission faults (IFSC bits `0b0100`/`0b1100`); anything else panics
(`none`). -/
def handle_instruction_abort_lower (_tf : A64TrapFrame) (iss : Nat)
    (is_user : Bool) (far : Nat) : Option A64ReturnReason :=
  if ¬(iss &&& 0b111100 = 0b0100 ∨ iss &&& 0b111100 = 0b1100) then
    none
  else
    some (.pageFault far
      (if is_user then MF_EXECUTE ||| MF_USER else MF_EXECUTE))

/-- `handle_data_abort_lower`: WRITE access when the WnR bit (iss bit 6) is
set and the CM cache-maintenance bit (iss bit 8) is clear, READ otherwise,
plus USER for user faults; report a page fault only for translation or
permission faults (DFSC bits `0b0100`/`0b1100`); anything else panics
(`none`). -/
def handle_data_abort_lower (_tf : A64TrapFrame) (iss : Nat)
    (is_user : Bool) (far : Nat) : Option A64ReturnReason :=
  if ¬(iss &&& 0b111100 = 0b0100 ∨ iss &&& 0b111100 = 0b1100) then
    none
  else
    some (.pageFault far
      (if is_user then
        (if iss &&& (1 <<< 6) ≠ 0 ∧ ¬iss &&& (1 <<< 8) ≠ 0 then MF_WRITE else MF_READ)
          ||| MF_USER
      else
        (if iss &&& (1 <<< 6) ≠ 0 ∧ ¬iss &&& (1 <<< 8) ≠ 0 then MF_WRITE else MF_READ)))

/-- `ESR_EL1::EC::Value::SVC64`. -/
def EC_SVC64 : Nat := 0x15

/-- `ESR_EL1::EC::Value::InstrAbortLowerEL`. -/
def EC_INSTR_ABORT_LOWER : Nat := 0x20

/-- `ESR_EL1::EC::Value::DataAbortLowerEL`. -/
def EC_DATA_ABORT_LOWER : Nat := 0x24

/-- `ESR_EL1::EC::Value::BRK64` — the exception class reported for a `brk`
(breakpoint) instruction executed in AArch64 state. -/
def EC_BRK64 : Nat := 0x3c

/-- The trap classification performed by `UserContext::run` in
`src/aarch64/uspace.rs` after `task_in` returns, as a function of the
ESR_EL1 exception class `ec`, its ISS field and the FAR_EL1 value: `SVC64`
maps to `Syscall`, the two lower-EL abort classes go to their handlers
(with `is_user = true`), and every other cause — including breakpoints —
falls to the wildcard arm, `Unknown`. -/
def aarch64_run_classify (tf : A64TrapFrame) (ec iss far : Nat) :
    Option A64ReturnReason :=
  if ec = EC_SVC64 then
    some .syscall
  else if ec = EC_INSTR_ABORT_LOWER then
    handle_instruction_abort_lower tf iss true far
  else if ec = EC_DATA_ABORT_LOWER then
    handle_data_abort_lower tf iss true far
  else
    some .unknown

/-! ### Bit lemmas for single-bit flag tests -/

/-- A single-bit `contains` test is a `testBit`. -/
theorem and_two_pow_eq_iff (n i : Nat) :
    n &&& 2 ^ i = 2 ^ i ↔ n.testBit i = true := by
  rw [Nat.and_two_pow]
  have h2 := Nat.two_pow_pos i
  cases h : n.testBit i
  · simp only [Bool.toNat_false, Nat.zero_mul]
    exact ⟨fun h0 => absurd h0.symm (by omega), fun h0 => by simp at h0⟩
  · simp

/-- A single-bit `intersects` test is a `testBit`. -/
theorem and_two_pow_ne_zero_iff (n i : Nat) :
    n &&& 2 ^ i ≠ 0 ↔ n.testBit i = true := by
  rw [Nat.and_two_pow]
  have h2 := Nat.two_pow_pos i
  cases h : n.testBit i
  · simp
  · simp only [Bool.toNat_true, Nat.one_mul, eq_self_iff_true, iff_true]
    omega

/-- Claim C3: whenever `run` classifies a user-mode trap as a page fault,
the access flags always contain USER; they contain EXECUTE for an
instruction abort; for a data abort they contain WRITE exactly when the
fault's WnR bit is set and its CM cache-maintenance bit is clear, and
otherwise contain READ.  On x86_64 the same holds of the decoded
`PageFaultErrorCode`: USER is present for a fault taken in user mode (the
hardware-set user bit 2), WRITE iff the write bit 1 is set, READ otherwise. -/
theorem page_fault_flags_correct :
    (∀ tf ec iss far vaddr fl,
        aarch64_run_classify tf ec iss far = some (.pageFault vaddr fl) →
        hasFlag fl MF_USER)
    ∧ (∀ tf iss far vaddr fl,
        handle_instruction_abort_lower tf iss true far = some (.pageFault vaddr fl) →
        hasFlag fl MF_EXECUTE ∧ hasFlag fl MF_USER)
    ∧ (∀ tf iss far vaddr fl,
        handle_data_abort_lower tf iss true far = some (.pageFault vaddr fl) →
        hasFlag fl MF_USER
        ∧ (hasFlag fl MF_WRITE ↔ (iss.testBit 6 = true ∧ iss.testBit 8 = false))
        ∧ (hasFlag fl MF_READ ↔ ¬(iss.testBit 6 = true ∧ iss.testBit 8 = false)))
    ∧ (∀ err fl, err_code_to_flags err = Except.ok fl →
        (err.testBit 2 = true → hasFlag fl MF_USER)
        ∧ (hasFlag fl MF_WRITE ↔ err.testBit 1 = true)
        ∧ (hasFlag fl MF_READ ↔ err.testBit 1 = false)) := by
  have hinstr : ∀ tf iss far vaddr fl,
      handle_instruction_abort_lower tf iss true far = some (.pageFault vaddr fl) →
      fl = MF_EXECUTE ||| MF_USER := by
    intro tf iss far vaddr fl h
    unfold handle_instruction_abort_lower at h
    split at h
    · exact absurd h (by simp)
    · rw [Option.some.injEq, A64ReturnReason.pageFault.injEq] at h
      exact h.2.symm
  have hdata : ∀ tf iss far vaddr fl,
      handle_data_abort_lower tf iss true far = some (.pageFault vaddr fl) →
      fl = (if iss &&& (1 <<< 6) ≠ 0 ∧ ¬iss &&& (1 <<< 8) ≠ 0 then MF_WRITE
        else MF_READ) ||| MF_USER := by
    intro tf iss far vaddr fl h
    unfold handle_data_abort_lower at h
    split at h
    · exact absurd h (by simp)
    · rw [Option.some.injEq, A64ReturnReason.pageFault.injEq] at h
      exact h.2.symm
  have hbit6 : ∀ iss : Nat, (iss &&& (1 <<< 6) ≠ 0) ↔ iss.testBit 6 = true := by
    intro iss
    have : (1 <<< 6 : Nat) = 2 ^ 6 := by decide
    rw [this]
    exact and_two_pow_ne_zero_iff iss 6
  have hbit8 : ∀ iss : Nat, (iss &&& (1 <<< 8) ≠ 0) ↔ iss.testBit 8 = true := by
    intro iss
    have : (1 <<< 8 : Nat) = 2 ^ 8 := by decide
    rw [this]
    exact and_two_pow_ne_zero_iff iss 8
  refine ⟨?_, ?_, ?_, ?_⟩
  · intro tf ec iss far vaddr fl h
    unfold aarch64_run_classify at h
    split at h
    · simp at h
    split at h
    · rw [hinstr tf iss far vaddr fl h]; decide
    split at h
    · rw [hdata tf iss far vaddr fl h]
      split <;> decide
    · simp at h
  · intro tf iss far vaddr fl h
    rw [hinstr tf iss far vaddr fl h]
    exact ⟨by decide, by decide⟩
  · intro tf iss far vaddr fl h
    rw [hdata tf iss far vaddr fl h]
    by_cases hc : iss &&& (1 <<< 6) ≠ 0 ∧ ¬iss &&& (1 <<< 8) ≠ 0
    · have hc' : iss.testBit 6 = true ∧ iss.testBit 8 = false := by
        refine ⟨(hbit6 iss).mp hc.1, ?_⟩
        rcases h8 : iss.testBit 8 with _ | _
        · rfl
        · exact absurd ((hbit8 iss).mpr h8) hc.2
      rw [if_pos hc]
      refine ⟨by decide, ?_, ?_⟩
      · simp [hc']; decide
      · simp [hc']; decide
    · have hc' : ¬(iss.testBit 6 = true ∧ iss.testBit 8 = false) := by
        intro ⟨h6, h8⟩
        refine hc ⟨(hbit6 iss).mpr h6, fun h8' => ?_⟩
        rw [(hbit8 iss).mp h8'] at h8
        cases h8
      rw [if_neg hc]
      refine ⟨by decide, ?_, ?_⟩
      · simp [hc']; decide
      · simp [hc']; decide
  · intro err fl h
    unfold err_code_to_flags at h
    split at h
    · exact absurd h (by simp)
    · rw [Except.ok.injEq] at h
      have hw : ((err &&& PF_KNOWN) &&& PF_WRITE = PF_WRITE) ↔ err.testBit 1 = true := by
        rw [Nat.and_assoc]
        rw [show PF_KNOWN &&& PF_WRITE = PF_WRITE from by decide]
        rw [show PF_WRITE = 2 ^ 1 from by decide]
        exact and_two_pow_eq_iff err 1
      have hu : ((err &&& PF_KNOWN) &&& PF_USER = PF_USER) ↔ err.testBit 2 = true := by
        rw [Nat.and_assoc]
        rw [show PF_KNOWN &&& PF_USER = PF_USER from by decide]
        rw [show PF_USER = 2 ^ 2 from by decide]
        exact and_two_pow_eq_iff err 2
      have hx : ((err &&& PF_KNOWN) &&& PF_IFETCH = PF_IFETCH) ↔ err.testBit 4 = true := by
        rw [Nat.and_assoc]
        rw [show PF_KNOWN &&& PF_IFETCH = PF_IFETCH from by decide]
        rw [show PF_IFETCH = 2 ^ 4 from by decide]
        exact and_two_pow_eq_iff err 4
      simp only [hw, hu, hx] at h
      rw [← h]
      cases h1 : err.testBit 1 <;> cases h2 : err.testBit 2 <;>
        cases h4 : err.testBit 4 <;>
        exact ⟨(fun hbad => by first | decide | cases hbad), by decide, by decide⟩

/-- All-zero aarch64 frame, used for concrete instantiations. -/
def a64tf0 : A64TrapFrame :=
  { r := fun _ => 0, usp := 0, tpidr := 0, elr := 0, spsr := 0 }

/-- Witness for C3: a concrete user data abort with ISS = 68 (WnR bit 6 set,
CM bit 8 clear, DFSC = 0b000100, translation fault) yields access flags 10 =
WRITE ∪ USER, and the three flag conditions hold of them. -/
theorem page_fault_flags_correct_witness :
    hasFlag 10 MF_USER
    ∧ (hasFlag 10 MF_WRITE ↔ (Nat.testBit 68 6 = true ∧ Nat.testBit 68 8 = false))
    ∧ (hasFlag 10 MF_READ ↔ ¬(Nat.testBit 68 6 = true ∧ Nat.testBit 68 8 = false)) :=
  page_fault_flags_correct.2.2.1 a64tf0 68 4096 4096 10 (by decide)

/-! ## x86_64 user context entry/exit (src/x86_64/uspace.rs, `run`) -/

/-- `x86::irq::BREAKPOINT_VECTOR` (#BP). -/
def BREAKPOINT_VECTOR : Nat := 3

/-- `x86::irq::INVALID_OPCODE_VECTOR` (#UD). -/
def INVALID_OPCODE_VECTOR : Nat := 6

/-- `x86::irq::PAGE_FAULT_VECTOR` (#PF). -/
def PAGE_FAULT_VECTOR : Nat := 14

/-- `x86::irq::DEBUG_VECTOR` (#DB). -/
def DEBUG_VECTOR : Nat := 1

/-- `x86::irq::GENERAL_PROTECTION_FAULT_VECTOR` (#GP). -/
def GENERAL_PROTECTION_FAULT_VECTOR : Nat := 13

/-- `LEGACY_SYSCALL_VECTOR` (0x80), in both `uspace.rs` and `trap.rs`. -/
def LEGACY_SYSCALL_VECTOR : Nat := 0x80

/-- `IRQ_VECTOR_START` in `src/x86_64/trap.rs`. -/
def IRQ_VECTOR_START : Nat := 0x20

/-- `IRQ_VECTOR_END` in `src/x86_64/trap.rs`. -/
def IRQ_VECTOR_END : Nat := 0xff

/-- `ExceptionInfo` of `src/x86_64/uspace.rs`. -/
structure X86ExceptionInfo where
  trap_vector : Nat
  rip : Nat
  error_code : Nat
  cr4 : Nat
deriving DecidableEq

/-- `ExceptionInfo::kind` on x86_64: matches on `trap_vector as u8`. -/
def X86ExceptionInfo.kind (info : X86ExceptionInfo) : ExceptionKind :=
  if info.trap_vector % 256 = BREAKPOINT_VECTOR then .breakpoint
  else if info.trap_vector % 256 = INVALID_OPCODE_VECTOR then .illegalInstruction
  else .other

/-- `ReturnReason` as instantiated on x86_64 (the `Exception` payload is
the x86_64 `ExceptionInfo`). -/
inductive X86ReturnReason
  | unknown
  | interrupt
  | syscall
  | pageFault (vaddr : Nat) (access_flags : Nat)
  | exception (info : X86ExceptionInfo)
deriving DecidableEq

/-- Events of the `handle_trap!` macro in `src/trap.rs`: which handler
index was invoked, plus the two `warn!` diagnostics. -/
inductive DispatchEvent
  | invoke (i : Nat)
  | warnNoHandler
  | warnMultiple
deriving DecidableEq

/-- The `handle_trap!` macro of `src/trap.rs` over the registered-handler
list of one trap category: with no entry, warn and report false; otherwise
warn if a second entry exists, then invoke the first handler once and
return its verdict.  The event list records the `warn!`s and the handler
invocations (by index) in order. -/
def handle_trap {α : Type} (handlers : List (α → Bool)) (arg : α) :
    Bool × List DispatchEvent :=
  match handlers with
  | [] => (false, [.warnNoHandler])
  | f :: rest =>
    (f arg, (if rest.isEmpty then [] else [.warnMultiple]) ++ [.invoke 0])

/-- Side effects of `UserContext::run` on x86_64, in program order. -/
inductive RunEvent
  | disableIrqs
  | switchToUserFsBase
  | enterUser
  | switchToKernelFsBase
  | irqDispatch (vector : Nat)
  | enableIrqs
deriving DecidableEq

/-- `UserContext::run` in `src/x86_64/uspace.rs`.  `tf` is the register
frame as written back by `enter_user` (so `tf.vector`/`tf.error_code`
describe the trap that ended the user trip); `cr2`/`cr4` are the control
register values read during classification.  Returns the classified
`ReturnReason` (`none` for the `panic!` on an undecodable #PF error code)
together with the ordered side-effect trace.  Note `enable_irqs` runs after
the classification `match` on every non-panic path, including `Interrupt`. -/
def x86_run (tf : X86TrapFrame) (cr2 cr4 : Nat)
    (irq_handlers : List (Nat → Bool)) :
    Option X86ReturnReason × List RunEvent :=
  if tf.vector % 256 = PAGE_FAULT_VECTOR then
    match err_code_to_flags tf.error_code with
    | Except.error _ =>
      (none,
        [.disableIrqs, .switchToUserFsBase, .enterUser, .switchToKernelFsBase])
    | Except.ok access_flags =>
      (some (.pageFault cr2 access_flags),
        [.disableIrqs, .switchToUserFsBase, .enterUser, .switchToKernelFsBase,
          .enableIrqs])
  else if tf.vector % 256 = LEGACY_SYSCALL_VECTOR then
    (some .syscall,
      [.disableIrqs, .switchToUserFsBase, .enterUser, .switchToKernelFsBase,
        .enableIrqs])
  else if IRQ_VECTOR_START ≤ tf.vector % 256 ∧ tf.vector % 256 ≤ IRQ_VECTOR_END then
    -- handle_trap!(IRQ, tf.vector as _): the verdict is computed and discarded
    let _handled := (handle_trap irq_handlers tf.vector).1
    (some .interrupt,
      [.disableIrqs, .switchToUserFsBase, .enterUser, .switchToKernelFsBase,
        .irqDispatch tf.vector, .enableIrqs])
  else
    (some (.exception ⟨tf.vector, tf.rip, tf.error_code, cr4⟩),
      [.disableIrqs, .switchToUserFsBase, .enterUser, .switchToKernelFsBase,
        .enableIrqs])

/-- Decides whether a classification outcome is an `Exception` whose
`kind()` is `Breakpoint` — what claim C4 predicts for a breakpoint cause. -/
def isBreakpointException : Option A64ReturnReason → Bool
  | some (.exception info) => decide (info.kind = .breakpoint)
  | _ => false

/-- Claim C4 counterexample: on aarch64, a user trap whose cause is a
breakpoint (`BRK64`, EC = 0x3c) is classified by `run` as `Unknown`, not as
`Exception` with kind `Breakpoint` — the claim fails for the aarch64 `run`. -/
theorem a64_run_breakpoint_is_unknown :
    aarch64_run_classify a64tf0 EC_BRK64 0 0 = some A64ReturnReason.unknown
    ∧ isBreakpointException (aarch64_run_classify a64tf0 EC_BRK64 0 0) = false :=
  ⟨rfl, rfl⟩

/-- Claim C4 (amended): on x86_64, `run` returns `Exception` with
`kind() == Breakpoint` for a breakpoint trap and `Syscall` for the legacy
syscall vector; on aarch64, `run` returns `Syscall` for an `SVC64` cause
but falls to the wildcard arm for a breakpoint cause and returns `Unknown`
(its `ExceptionInfo::kind` moreover always answers `Other`). -/
theorem run_breakpoint_syscall_classification :
    (∀ (tf : X86TrapFrame) (cr2 cr4 : Nat) (irqh : List (Nat → Bool)),
        tf.vector % 256 = BREAKPOINT_VECTOR →
        (x86_run tf cr2 cr4 irqh).1 =
          some (.exception ⟨tf.vector, tf.rip, tf.error_code, cr4⟩)
        ∧ (X86ExceptionInfo.mk tf.vector tf.rip tf.error_code cr4).kind =
            .breakpoint)
    ∧ (∀ (tf : X86TrapFrame) (cr2 cr4 : Nat) (irqh : List (Nat → Bool)),
        tf.vector % 256 = LEGACY_SYSCALL_VECTOR →
        (x86_run tf cr2 cr4 irqh).1 = some .syscall)
    ∧ (∀ (tf : A64TrapFrame) (iss far : Nat),
        aarch64_run_classify tf EC_SVC64 iss far = some .syscall)
    ∧ (∀ (tf : A64TrapFrame) (iss far : Nat),
        aarch64_run_classify tf EC_BRK64 iss far = some .unknown) := by
  refine ⟨?_, ?_, fun tf iss far => rfl, fun tf iss far => rfl⟩
  · intro tf cr2 cr4 irqh h
    simp only [BREAKPOINT_VECTOR] at h
    constructor
    · simp only [x86_run, PAGE_FAULT_VECTOR, LEGACY_SYSCALL_VECTOR,
        IRQ_VECTOR_START, IRQ_VECTOR_END]
      rw [if_neg (by omega), if_neg (by omega), if_neg (by omega)]
    · simp only [X86ExceptionInfo.kind, BREAKPOINT_VECTOR]
      rw [if_pos h]
  · intro tf cr2 cr4 irqh h
    simp only [LEGACY_SYSCALL_VECTOR] at h
    simp only [x86_run, PAGE_FAULT_VECTOR, LEGACY_SYSCALL_VECTOR]
    rw [if_neg (by omega), if_pos h]

/-- Concrete frame returned from user mode by a breakpoint trap. -/
def tfBP : X86TrapFrame := { X86TrapFrame.default with vector := 3, rip := 7 }

/-- Witness for the amended C4: a concrete breakpoint trap at `rip = 7` is
classified as an `Exception` whose kind is `Breakpoint`. -/
theorem run_breakpoint_syscall_classification_witness :
    (x86_run tfBP 0 0 []).1 =
      some (X86ReturnReason.exception ⟨3, 7, 0, 0⟩)
    ∧ (X86ExceptionInfo.mk 3 7 0 0).kind = ExceptionKind.breakpoint :=
  run_breakpoint_syscall_classification.1 tfBP 0 0 [] (by decide)

/-- Concrete frame returned from user mode by a hardware interrupt
(vector 0x20). -/
def tfIRQ : X86TrapFrame := { X86TrapFrame.default with vector := 0x20 }

/-- Claim C8 counterexample: for a trap classified as `Interrupt`
(vector 0x20), `run` still executes `enable_irqs()` before returning — the
`enable_irqs` call sits after the whole classification `match`, so
interrupts ARE re-enabled on the `Interrupt` path, contrary to the claim. -/
theorem run_interrupt_reenables_irqs :
    (x86_run tfIRQ 0 0 []).1 = some X86ReturnReason.interrupt
    ∧ RunEvent.enableIrqs ∈ (x86_run tfIRQ 0 0 []).2 :=
  ⟨rfl, by decide⟩

/-- Claim C8 (amended): whenever `UserContext::run` returns to its caller
(any `ReturnReason` variant — including `Interrupt`; the only non-returning
path is the panic on an undecodable #PF error code), its final side effect
is re-enabling interrupts. -/
theorem run_reenables_irqs (tf : X86TrapFrame) (cr2 cr4 : Nat)
    (irqh : List (Nat → Bool)) (r : X86ReturnReason) :
    (x86_run tf cr2 cr4 irqh).1 = some r →
    (x86_run tf cr2 cr4 irqh).2.getLast? = some RunEvent.enableIrqs := by
  intro h
  unfold x86_run at h ⊢
  by_cases h14 : tf.vector % 256 = PAGE_FAULT_VECTOR
  · rw [if_pos h14] at h ⊢
    rcases he : err_code_to_flags tf.error_code with e | fl
    · rw [he] at h
      exact absurd h (by simp)
    · rfl
  · rw [if_neg h14] at h ⊢
    by_cases h80 : tf.vector % 256 = LEGACY_SYSCALL_VECTOR
    · rw [if_pos h80]
      rfl
    · rw [if_neg h80] at h ⊢
      by_cases hirq : IRQ_VECTOR_START ≤ tf.vector % 256 ∧
          tf.vector % 256 ≤ IRQ_VECTOR_END
      · rw [if_pos hirq]
        rfl
      · rw [if_neg hirq]
        rfl

/-- Witness for the amended C8: the interrupt round trip with vector 0x20
ends by re-enabling interrupts. -/
theorem run_reenables_irqs_witness :
    (x86_run tfIRQ 0 0 []).2.getLast? = some RunEvent.enableIrqs :=
  run_reenables_irqs tfIRQ 0 0 [] X86ReturnReason.interrupt (by decide)

/-! ## Handler registry dispatch (src/trap.rs, `handle_trap!`) — claim C5 -/

/-- Recognizer for handler-invocation events. -/
def isInvoke : DispatchEvent → Bool
  | .invoke _ => true
  | _ => false

/-- Claim C5: `handle_trap!` with zero registered handlers returns false and
invokes no callback; with exactly one handler it invokes that handler
exactly once and returns its verdict, without the multiple-handler warning;
with two or more it logs the warning and invokes only the first handler
(exactly once), returning the first handler's verdict. -/
theorem handle_trap_dispatch {α : Type} (handlers : List (α → Bool)) (arg : α) :
    (handlers = [] →
      (handle_trap handlers arg).1 = false
      ∧ ∀ i, DispatchEvent.invoke i ∉ (handle_trap handlers arg).2)
    ∧ (∀ f, handlers = [f] →
      (handle_trap handlers arg).1 = f arg
      ∧ (handle_trap handlers arg).2.filter isInvoke = [DispatchEvent.invoke 0]
      ∧ DispatchEvent.warnMultiple ∉ (handle_trap handlers arg).2)
    ∧ (∀ f g rest, handlers = f :: g :: rest →
      (handle_trap handlers arg).1 = f arg
      ∧ (handle_trap handlers arg).2.filter isInvoke = [DispatchEvent.invoke 0]
      ∧ DispatchEvent.warnMultiple ∈ (handle_trap handlers arg).2) := by
  refine ⟨?_, ?_, ?_⟩
  · rintro rfl
    exact ⟨rfl, fun i => by simp [handle_trap]⟩
  · rintro f rfl
    exact ⟨rfl, by simp [handle_trap, isInvoke], by simp [handle_trap]⟩
  · rintro f g rest rfl
    exact ⟨rfl, by simp [handle_trap, isInvoke], by simp [handle_trap]⟩

/-- Witness for C5: with two concrete handlers registered, only the first
one is invoked and its verdict (true on argument 5) is returned. -/
theorem handle_trap_dispatch_witness :
    (handle_trap [fun n : Nat => n == 5, fun _ : Nat => false] 5).1 =
      (fun n : Nat => n == 5) 5
    ∧ (handle_trap [fun n : Nat => n == 5, fun _ : Nat => false] 5).2.filter
        isInvoke = [DispatchEvent.invoke 0]
    ∧ DispatchEvent.warnMultiple ∈
        (handle_trap [fun n : Nat => n == 5, fun _ : Nat => false] 5).2 :=
  (handle_trap_dispatch [fun n : Nat => n == 5, fun _ : Nat => false] 5).2.2
    (fun n : Nat => n == 5) (fun _ : Nat => false) [] rfl

/-! ## Kernel task context switch (src/x86_64/context.rs) — claim C6 -/

/-- `TaskContext` of `src/x86_64/context.rs`, in the build with the
`fp-simd`, `tls` and `uspace` features all enabled (so the `ext_state` and
`cr3` fields are present).  The FXSAVE area contents are abstracted to one
value. -/
structure TaskContext where
  kstack_top : Nat
  rsp : Nat
  fs_base : Nat
  ext_state : Nat
  cr3 : Nat
deriving DecidableEq

/-- The CPU state that `switch_to` reads and writes: the FPU/SIMD register
file, the FS-base thread-pointer register, the CR3 root register, and the
(abstracted) callee-saved-register/stack position. -/
structure X86Cpu where
  fpu : Nat
  fs_base_reg : Nat
  cr3_reg : Nat
  rsp_reg : Nat
deriving DecidableEq

/-- Hardware side effects of `switch_to`, in program order. -/
inductive SwitchEvent
  | extSave
  | extRestore
  | tpRead
  | tpWrite (v : Nat)
  | cr3Write (root : Nat)
  | ctxSwitch
deriving DecidableEq

/-- Step (1) of `switch_to` (`fp-simd`): `self.ext_state.save()` then
`next_ctx.ext_state.restore()`. -/
def fpu_state_switch (self next : TaskContext) (cpu : X86Cpu) :
    TaskContext × X86Cpu × List SwitchEvent :=
  ({ self with ext_state := cpu.fpu }, { cpu with fpu := next.ext_state },
    [.extSave, .extRestore])

/-- Step (2) (`tls`): `self.fs_base = read_thread_pointer();
write_thread_pointer(next_ctx.fs_base)`. -/
def tls_switch (self next : TaskContext) (cpu : X86Cpu) :
    TaskContext × X86Cpu × List SwitchEvent :=
  ({ self with fs_base := cpu.fs_base_reg },
    { cpu with fs_base_reg := next.fs_base },
    [.tpRead, .tpWrite next.fs_base])

/-- Step (3) (`uspace`): `if next_ctx.cr3 != self.cr3 {
write_user_page_table(next_ctx.cr3) }` — the CR3 register is written only
when the two stored roots differ. -/
def cr3_switch (self next : TaskContext) (cpu : X86Cpu) :
    TaskContext × X86Cpu × List SwitchEvent :=
  if next.cr3 ≠ self.cr3 then
    (self, { cpu with cr3_reg := next.cr3 }, [.cr3Write next.cr3])
  else
    (self, cpu, [])

/-- Step (4): `context_switch(&mut self.rsp, &next_ctx.rsp)` — push the
callee-saved registers, store the resulting stack pointer into `self.rsp`,
load `next_ctx.rsp` and pop, transferring control. -/
def context_switch (self next : TaskContext) (cpu : X86Cpu) :
    TaskContext × X86Cpu × List SwitchEvent :=
  ({ self with rsp := cpu.rsp_reg }, { cpu with rsp_reg := next.rsp },
    [.ctxSwitch])

/-- `TaskContext::switch_to` in `src/x86_64/context.rs`: the four steps in
source order, with their event traces concatenated. -/
def switch_to (self next : TaskContext) (cpu : X86Cpu) :
    TaskContext × X86Cpu × List SwitchEvent :=
  match fpu_state_switch self next cpu with
  | (s1, c1, e1) =>
    match tls_switch s1 next c1 with
    | (s2, c2, e2) =>
      match cr3_switch s2 next c2 with
      | (s3, c3, e3) =>
        match context_switch s3 next c3 with
        | (s4, c4, e4) => (s4, c4, e1 ++ e2 ++ e3 ++ e4)

/-- Claim C6: `switch_to` performs, in this order: (1) save the current
FPU/SIMD state into `self` and restore `next`'s; (2) save the current
thread pointer into `self` and install `next`'s; (3) write CR3 with
`next`'s root exactly when `next`'s stored root differs from `self`'s
(otherwise CR3 is left unwritten); (4) the low-level callee-saved register
save/restore, last. -/
theorem switch_to_ordered_effects (self next : TaskContext) (cpu : X86Cpu) :
    (switch_to self next cpu).2.2 =
      [SwitchEvent.extSave, SwitchEvent.extRestore, SwitchEvent.tpRead,
        SwitchEvent.tpWrite next.fs_base]
      ++ (if next.cr3 ≠ self.cr3 then [SwitchEvent.cr3Write next.cr3] else [])
      ++ [SwitchEvent.ctxSwitch]
    ∧ (SwitchEvent.cr3Write next.cr3 ∈ (switch_to self next cpu).2.2 ↔
        next.cr3 ≠ self.cr3)
    ∧ ((switch_to self next cpu).2.1.cr3_reg =
        if next.cr3 ≠ self.cr3 then next.cr3 else cpu.cr3_reg)
    ∧ (switch_to self next cpu).1.ext_state = cpu.fpu
    ∧ (switch_to self next cpu).2.1.fpu = next.ext_state
    ∧ (switch_to self next cpu).1.fs_base = cpu.fs_base_reg
    ∧ (switch_to self next cpu).2.1.fs_base_reg = next.fs_base
    ∧ (switch_to self next cpu).2.2.getLast? = some SwitchEvent.ctxSwitch
    ∧ (switch_to self next cpu).1.rsp = cpu.rsp_reg
    ∧ (switch_to self next cpu).2.1.rsp_reg = next.rsp := by
  by_cases hc : next.cr3 ≠ self.cr3 <;>
    simp [switch_to, fpu_state_switch, tls_switch, cr3_switch,
      context_switch, hc]

/-! ## Kernel-mode trap dispatcher (src/x86_64/trap.rs) — claim C7 -/

/-- Events of the kernel-mode dispatcher: which handler slot a trap was
offered to, and whether exception-table fixup was attempted. -/
inductive KTrapEvent
  | pfHandlerOffer
  | fixupAttempt
  | debugOffer
  | breakpointOffer
  | irqDispatch (vector : Nat)
deriving DecidableEq

/-- Outcome of a kernel-mode trap: resume the interrupted code, or reach a
`panic!` (dump and halt, never resumes). -/
inductive KTrapOutcome
  | resumed
  | fatal
deriving DecidableEq

/-- `handle_page_fault` in `src/x86_64/trap.rs`: decode the error code
(panicking on reserved bits), offer the fault to the PAGE_FAULT handler
slot, resume if handled; otherwise attempt `fixup_exception` and resume on
success with the fixed-up frame; otherwise panic. -/
def handle_page_fault (pf_handlers : List (Nat × Nat → Bool))
    (ex_table : List ExceptionTableEntry) (tf : X86TrapFrame) (cr2 : Nat) :
    KTrapOutcome × X86TrapFrame × List KTrapEvent :=
  match err_code_to_flags tf.error_code with
  | Except.error _ => (.fatal, tf, [])
  | Except.ok access_flags =>
    if (handle_trap pf_handlers (cr2, access_flags)).1 then
      (.resumed, tf, [.pfHandlerOffer])
    else if (fixup_exception ex_table tf).1 then
      (.resumed, (fixup_exception ex_table tf).2,
        [.pfHandlerOffer, .fixupAttempt])
    else
      (.fatal, tf, [.pfHandlerOffer, .fixupAttempt])

/-- `x86_trap_handler` in `src/x86_64/trap.rs`: dispatch on `tf.vector as
u8` — page fault, debug, breakpoint (both resume regardless of their
handler's verdict), general-protection fault (immediate panic, no handler,
no fixup), the hardware IRQ range, and a fatal catch-all. -/
def x86_trap_handler (irq_handlers : List (Nat → Bool))
    (pf_handlers : List (Nat × Nat → Bool))
    (debug_handlers : List (X86TrapFrame → Bool))
    (break_handlers : List (X86TrapFrame × Nat → Bool))
    (ex_table : List ExceptionTableEntry) (tf : X86TrapFrame) (cr2 : Nat) :
    KTrapOutcome × X86TrapFrame × List KTrapEvent :=
  if tf.vector % 256 = PAGE_FAULT_VECTOR then
    handle_page_fault pf_handlers ex_table tf cr2
  else if tf.vector % 256 = DEBUG_VECTOR then
    let _handled := (handle_trap debug_handlers tf).1
    (.resumed, tf, [.debugOffer])
  else if tf.vector % 256 = BREAKPOINT_VECTOR then
    let _handled := (handle_trap break_handlers (tf, 0)).1
    (.resumed, tf, [.breakpointOffer])
  else if tf.vector % 256 = GENERAL_PROTECTION_FAULT_VECTOR then
    (.fatal, tf, [])
  else if IRQ_VECTOR_START ≤ tf.vector % 256 ∧ tf.vector % 256 ≤ IRQ_VECTOR_END then
    let _handled := (handle_trap irq_handlers tf.vector).1
    (.resumed, tf, [.irqDispatch tf.vector])
  else
    (.fatal, tf, [])

/-- Claim C7: a kernel-mode page fault (with a decodable error code) is
first offered to the page-fault handler slot and resumes if handled;
otherwise exception-table fixup is attempted, resuming on success with the
fixed-up frame; otherwise the dispatcher reaches the fatal path.  A
general-protection fault is always fatal, with an empty event trace — it
is never offered to any handler slot or to fixup. -/
theorem kernel_trap_dispatch_policy (irqh : List (Nat → Bool))
    (pfh : List (Nat × Nat → Bool)) (dbgh : List (X86TrapFrame → Bool))
    (brkh : List (X86TrapFrame × Nat → Bool))
    (ex_table : List ExceptionTableEntry) (tf : X86TrapFrame) (cr2 : Nat) :
    (∀ fl, tf.vector % 256 = PAGE_FAULT_VECTOR →
      err_code_to_flags tf.error_code = Except.ok fl →
      ((handle_trap pfh (cr2, fl)).1 = true →
        x86_trap_handler irqh pfh dbgh brkh ex_table tf cr2 =
          (.resumed, tf, [KTrapEvent.pfHandlerOffer]))
      ∧ ((handle_trap pfh (cr2, fl)).1 = false →
          (fixup_exception ex_table tf).1 = true →
          x86_trap_handler irqh pfh dbgh brkh ex_table tf cr2 =
            (.resumed, (fixup_exception ex_table tf).2,
              [KTrapEvent.pfHandlerOffer, KTrapEvent.fixupAttempt]))
      ∧ ((handle_trap pfh (cr2, fl)).1 = false →
          (fixup_exception ex_table tf).1 = false →
          x86_trap_handler irqh pfh dbgh brkh ex_table tf cr2 =
            (.fatal, tf, [KTrapEvent.pfHandlerOffer, KTrapEvent.fixupAttempt])))
    ∧ (tf.vector % 256 = GENERAL_PROTECTION_FAULT_VECTOR →
        x86_trap_handler irqh pfh dbgh brkh ex_table tf cr2 =
          (.fatal, tf, [])) := by
  constructor
  · intro fl h14 hok
    have hpf : x86_trap_handler irqh pfh dbgh brkh ex_table tf cr2 =
        handle_page_fault pfh ex_table tf cr2 := by
      unfold x86_trap_handler
      rw [if_pos h14]
    refine ⟨?_, ?_, ?_⟩
    · intro hh
      rw [hpf]
      unfold handle_page_fault
      simp only [hok]
      rw [if_pos hh]
    · intro hh hfix
      rw [hpf]
      unfold handle_page_fault
      simp only [hok]
      rw [if_neg (by simp [hh]), if_pos hfix]
    · intro hh hfix
      rw [hpf]
      unfold handle_page_fault
      simp only [hok]
      rw [if_neg (by simp [hh]), if_neg (by simp [hfix])]
  · intro h13
    unfold x86_trap_handler
    simp only [PAGE_FAULT_VECTOR, DEBUG_VECTOR, BREAKPOINT_VECTOR,
      GENERAL_PROTECTION_FAULT_VECTOR] at h13 ⊢
    rw [if_neg (by omega), if_neg (by omega), if_neg (by omega), if_pos h13]

/-- Concrete frame for a kernel-mode general-protection fault. -/
def tfGP : X86TrapFrame := { X86TrapFrame.default with vector := 13 }

/-- Witness for C7: a concrete #GP trap with no registered handlers is
fatal with an empty offer trace. -/
theorem kernel_trap_dispatch_policy_witness :
    x86_trap_handler [] [] [] [] [] tfGP 0 = (KTrapOutcome.fatal, tfGP, []) :=
  (kernel_trap_dispatch_policy [] [] [] [] [] tfGP 0).2 (by decide)

end Axcpu
